import Mathlib

set_option maxHeartbeats 1000000

/-!  Verification of the Dapr python-sdk error-normalization layer
     (`dapr/clients/exceptions.py`): a shallow embedding of the
     `DaprInternalError`, `DaprHttpError`, `StatusDetails` and
     `DaprGrpcError` classes, together with theorems about their
     specified behaviour.  Python exceptions are modelled with
     `Except`: a function that may raise returns `Except PyExc α`. -/

/-- Byte strings (Python `bytes`) are modelled as lists of byte values. -/
abbrev ByteStr := List Nat

/-- A Python exception, identified by its message. -/
abbrev PyExc := String

/-- A Python/JSON-style value, as returned by a deserializer
    (`json.loads`-like): `None`, booleans, integers, strings, bytes,
    lists, and string-keyed dicts (modelled as association lists in
    insertion order; real dicts have unique keys). -/
inductive PyValue : Type where
  | pyNone : PyValue
  | pyBool : Bool → PyValue
  | pyInt : Int → PyValue
  | pyStr : String → PyValue
  | pyBytes : ByteStr → PyValue
  | pyList : List PyValue → PyValue
  | pyDict : List (String × PyValue) → PyValue

/-- A Python dict with string keys. -/
abbrev PyDict := List (String × PyValue)

/-- Python truthiness: `None`, `False`, `0`, and empty strings, bytes,
    lists and dicts are falsy; everything else is truthy. -/
def PyValue.truthy : PyValue → Bool
  | .pyNone => false
  | .pyBool b => b
  | .pyInt n => n != 0
  | .pyStr s => !s.isEmpty
  | .pyBytes bs => !bs.isEmpty
  | .pyList xs => !xs.isEmpty
  | .pyDict es => !es.isEmpty

/-- Python `isinstance(v, dict)`. -/
def PyValue.isDict : PyValue → Bool
  | .pyDict _ => true
  | _ => false

/-- Python `d.get(k)`: the value at `k`, or `None` when absent
    (only ever applied after an `isinstance(_, dict)` check). -/
def dictGet (v : PyValue) (k : String) : PyValue :=
  match v with
  | .pyDict es => (es.lookup k).getD .pyNone
  | _ => .pyNone

/-- Python `a or b`: `a` when truthy, else `b`. -/
def pyOr (a b : PyValue) : PyValue :=
  if a.truthy then a else b

/-- Python f-string rendering of an `Optional[int]`:
    `None` prints as `"None"`, an int as its decimal digits. -/
def pyReprOptInt : Option Int → String
  | none => "None"
  | some n => toString n

def ERROR_CODE_UNKNOWN : String := "UNKNOWN"

def ERROR_CODE_DOES_NOT_EXIST : String := "ERR_DOES_NOT_EXIST"

mutual

/-- Python `str()` / f-string rendering of a value.  Scalars are exact;
    container and bytes rendering approximates Python `repr`
    (string-escape sequences elided) — the error classes only ever
    interpolate messages and error codes, which are strings or `None`
    in practice, and no theorem below depends on container rendering. -/
def pyStrOf : PyValue → String
  | .pyNone => "None"
  | .pyBool true => "True"
  | .pyBool false => "False"
  | .pyInt n => toString n
  | .pyStr s => s
  | .pyBytes bs => "b" ++ toString bs
  | .pyList xs => "[" ++ pyStrOfList xs ++ "]"
  | .pyDict es => "\x7b" ++ pyStrOfDict es ++ "\x7d"

def pyStrOfList : List PyValue → String
  | [] => ""
  | [x] => pyStrOf x
  | x :: xs => pyStrOf x ++ ", " ++ pyStrOfList xs

def pyStrOfDict : List (String × PyValue) → String
  | [] => ""
  | [(k, v)] => "'" ++ k ++ "': " ++ pyStrOf v
  | (k, v) :: es => "'" ++ k ++ "': " ++ pyStrOf v ++ ", " ++ pyStrOfDict es

end

/-- A JSON document, as produced by `json.loads` on the text emitted by
    `json.dumps` (floats do not occur in this layer, so numbers are
    integers). -/
inductive Json : Type where
  | null : Json
  | bool : Bool → Json
  | num : Int → Json
  | str : String → Json
  | arr : List Json → Json
  | obj : List (String × Json) → Json

mutual

/-- `json.dumps`, viewed structurally: the JSON document a Python value
    serializes to, or `none` when the value is not JSON-serializable
    (raw `bytes` make `json.dumps` raise `TypeError`). -/
def pyToJson : PyValue → Option Json
  | .pyNone => some .null
  | .pyBool b => some (.bool b)
  | .pyInt n => some (.num n)
  | .pyStr s => some (.str s)
  | .pyBytes _ => none
  | .pyList xs =>
    match pyToJsonList xs with
    | some ys => some (.arr ys)
    | none => none
  | .pyDict es =>
    match pyToJsonDict es with
    | some fs => some (.obj fs)
    | none => none

def pyToJsonList : List PyValue → Option (List Json)
  | [] => some []
  | x :: xs =>
    match pyToJson x, pyToJsonList xs with
    | some y, some ys => some (y :: ys)
    | _, _ => none

def pyToJsonDict : List (String × PyValue) → Option (List (String × Json))
  | [] => some []
  | (k, v) :: es =>
    match pyToJson v, pyToJsonDict es with
    | some w, some fs => some ((k, w) :: fs)
    | _, _ => none

end

mutual

/-- `json.loads`, viewed structurally: the Python value a JSON document
    decodes to. -/
def jsonToPy : Json → PyValue
  | .null => .pyNone
  | .bool b => .pyBool b
  | .num n => .pyInt n
  | .str s => .pyStr s
  | .arr ys => .pyList (jsonToPyList ys)
  | .obj fs => .pyDict (jsonToPyDict fs)

def jsonToPyList : List Json → List PyValue
  | [] => []
  | y :: ys => jsonToPy y :: jsonToPyList ys

def jsonToPyDict : List (String × Json) → List (String × PyValue)
  | [] => []
  | (k, w) :: fs => (k, jsonToPy w) :: jsonToPyDict fs

end

/-- The base64 alphabet, index 0–63 (RFC 4648, as used by
    `base64.b64encode`). -/
def base64Alphabet : List Char :=
  "ABCDEFGHIJKLMNOPQRSTUVWXYZabcdefghijklmnopqrstuvwxyz0123456789+/".data

/-- The base64 character for a 6-bit group. -/
def b64Char (n : Nat) : Char := base64Alphabet.getD n 'A'

/-- `base64.b64encode(bs).decode('utf-8')`: standard base64 with `=`
    padding, three input bytes per four output characters. -/
def base64Encode : ByteStr → String
  | [] => ""
  | [b1] =>
    String.mk [b64Char (b1 / 4), b64Char (b1 % 4 * 16), '=', '=']
  | [b1, b2] =>
    String.mk [b64Char (b1 / 4), b64Char (b1 % 4 * 16 + b2 / 16),
               b64Char (b2 % 16 * 4), '=']
  | b1 :: b2 :: b3 :: rest =>
    String.mk [b64Char (b1 / 4), b64Char (b1 % 4 * 16 + b2 / 16),
               b64Char (b2 % 16 * 4 + b3 / 64), b64Char (b3 % 64)]
      ++ base64Encode rest

/-- `DaprInternalError`: message, symbolic error code and optional raw
    response bytes.  `message` and `error_code` are stored exactly as
    passed (Python does not enforce the `Optional[str]` annotations, and
    `DaprHttpError` may pass through any value found in a response
    body), so both fields are `PyValue`; the Python `None` is `pyNone`.
    Field names match the class's attributes/properties. -/
structure DaprInternalError : Type where
  message : PyValue
  error_code : PyValue
  raw_response_bytes : Option ByteStr

/-- `DaprInternalError.__init__(message, error_code=ERROR_CODE_UNKNOWN,
    raw_response_bytes=None)`: stores its three arguments unchanged. -/
def DaprInternalError.init (message : PyValue) (error_code : PyValue)
    (raw_response_bytes : Option ByteStr) : DaprInternalError :=
  { message := message, error_code := error_code,
    raw_response_bytes := raw_response_bytes }

/-- `DaprInternalError.as_dict()`: the mapping
    `{message, errorCode, raw_response_bytes}` with the bytes left raw. -/
def DaprInternalError.as_dict (e : DaprInternalError) : PyValue :=
  .pyDict [("message", e.message),
           ("errorCode", e.error_code),
           ("raw_response_bytes",
             match e.raw_response_bytes with
             | none => .pyNone
             | some bs => .pyBytes bs)]

/-- Python `d[k] = v` on a dict value: replaces the entry at `k`
    (the key is always already present where this is used). -/
def dictSet (v : PyValue) (k : String) (w : PyValue) : PyValue :=
  match v with
  | .pyDict es => .pyDict (es.map fun kv => if kv.1 = k then (k, w) else kv)
  | other => other

/-- `DaprInternalError.as_json_safe_dict()`: `as_dict()` with
    `raw_response_bytes` replaced by its base64 text encoding when the
    bytes are present. -/
def DaprInternalError.as_json_safe_dict (e : DaprInternalError) : PyValue :=
  let error_dict := e.as_dict
  match e.raw_response_bytes with
  | none => error_dict
  | some bs => dictSet error_dict "raw_response_bytes" (.pyStr (base64Encode bs))

/-- Python `v == s` for a string literal `s`: values of another type
    are never equal to a `str`. -/
def pyEqStr (v : PyValue) (s : String) : Bool :=
  match v with
  | .pyStr t => t == s
  | _ => false

/-- `DaprInternalError.__str__`. -/
def DaprInternalError.toStr (e : DaprInternalError) : String :=
  if !pyEqStr e.error_code ERROR_CODE_UNKNOWN then
    "('" ++ pyStrOf e.message ++ "', '" ++ pyStrOf e.error_code ++ "')"
  else if e.message.truthy then pyStrOf e.message else "Unknown Dapr Error."

/-- A pluggable `Serializer`: `deserialize(bytes)` returns a value or
    raises (any exception). -/
abbrev Serializer := ByteStr → Except PyExc PyValue

/-- `raw_response_bytes is None or len(raw_response_bytes) == 0`. -/
def bytesNoneOrEmpty : Option ByteStr → Bool
  | none => true
  | some bs => bs.isEmpty

/-- Truthiness of an `Optional[bytes]`: `None` and `b""` are falsy. -/
def bytesTruthy : Option ByteStr → Bool
  | none => false
  | some bs => !bs.isEmpty

/-- `DaprHttpError` adds an HTTP status code and reason phrase to
    `DaprInternalError`. -/
structure DaprHttpError extends DaprInternalError : Type where
  status_code : Option Int
  reason : Option String

/-- The `super().__init__(message or f'HTTP status code: {status_code}',
    error_code, raw_response_bytes)` call at the end of
    `DaprHttpError.__init__`, together with the `_status_code` and
    `_reason` assignments at its start. -/
def mkHttpError (message error_code : PyValue) (raw : Option ByteStr)
    (status_code : Option Int) (reason : Option String) : DaprHttpError :=
  { message := pyOr message (.pyStr ("HTTP status code: " ++ pyReprOptInt status_code)),
    error_code := error_code,
    raw_response_bytes := raw,
    status_code := status_code,
    reason := reason }

/-- `DaprHttpError.__init__(serializer, raw_response_bytes=None,
    status_code=None, reason=None)`.  `error_code` starts as `UNKNOWN`
    and `message`/`error_info` as `None`; an empty-or-absent body with
    status 404 classifies as `ERR_DOES_NOT_EXIST` and discards the
    body; otherwise a non-empty body is deserialized inside
    `try: ... except Exception: pass` (a raised exception leaves
    `error_info = None`), and a truthy dict result supplies
    `message`/`errorCode`.  The whole constructor can never raise,
    hence always returns `Except.ok`. -/
def DaprHttpError.initE (serializer : Serializer)
    (raw_response_bytes : Option ByteStr) (status_code : Option Int)
    (reason : Option String) : Except PyExc DaprHttpError :=
  if bytesNoneOrEmpty raw_response_bytes && (status_code == some 404) then
    .ok (mkHttpError .pyNone (.pyStr ERROR_CODE_DOES_NOT_EXIST) none
          status_code reason)
  else if bytesTruthy raw_response_bytes then
    let error_info : PyValue :=
      match serializer (raw_response_bytes.getD []) with
      | .ok v => v
      | .error _ => .pyNone
    if error_info.truthy && error_info.isDict then
      .ok (mkHttpError (dictGet error_info "message")
            (pyOr (dictGet error_info "errorCode") (.pyStr ERROR_CODE_UNKNOWN))
            raw_response_bytes status_code reason)
    else
      .ok (mkHttpError .pyNone (.pyStr ERROR_CODE_UNKNOWN)
            raw_response_bytes status_code reason)
  else
    .ok (mkHttpError .pyNone (.pyStr ERROR_CODE_UNKNOWN)
          raw_response_bytes status_code reason)

/-- `DaprHttpError.as_dict()`: the base mapping extended with
    `status_code` and `reason`. -/
def DaprHttpError.as_dict (e : DaprHttpError) : PyValue :=
  match e.toDaprInternalError.as_dict with
  | .pyDict es =>
    .pyDict (es ++ [("status_code",
                      match e.status_code with
                      | none => .pyNone
                      | some n => .pyInt n),
                    ("reason",
                      match e.reason with
                      | none => .pyNone
                      | some r => .pyStr r)])
  | other => other

/-- The HTTP unknown-fallback rendering
    `f'Unknown Dapr Error. HTTP status code: {status_code}.'`. -/
def unknownHttpFallback (status_code : Option Int) : String :=
  "Unknown Dapr Error. HTTP status code: " ++ pyReprOptInt status_code ++ "."

/-- `DaprHttpError.__str__`. -/
def DaprHttpError.toStr (e : DaprHttpError) : String :=
  if !pyEqStr e.error_code ERROR_CODE_UNKNOWN then
    pyStrOf e.message ++ " (Error Code: " ++ pyStrOf e.error_code ++
      ", Status Code: " ++ pyReprOptInt e.status_code ++ ")"
  else
    unknownHttpFallback e.status_code

/-- A `grpc.StatusCode` enum member: `name` is its symbolic name
    (e.g. `"NOT_FOUND"`), `value0` the numeric code `value[0]`
    (e.g. `5`). -/
structure StatusCode : Type where
  name : String
  value0 : Int

/-- The declared type of a packed `google.protobuf.Any` detail entry,
    as tested by `detail.Is(error_details_pb2.<Kind>.DESCRIPTOR)`;
    `unknownKind` stands for any type outside the ten well-known
    ones. -/
inductive DetailKind : Type where
  | errorInfo
  | retryInfo
  | debugInfo
  | quotaFailure
  | preconditionFailure
  | badRequest
  | requestInfo
  | resourceInfo
  | helpKind
  | localizedMessage
  | unknownKind

/-- A packed `Any` detail entry: its declared type plus the key/value
    mapping `MessageToDict(detail, preserving_proto_field_name=True)`
    produces for it. -/
structure AnyDetail : Type where
  kind : DetailKind
  message_dict : PyDict

/-- A decoded `google.rpc.status_pb2.Status` message: numeric code,
    message text, and the packed `Any` details. -/
structure GrpcStatusPB : Type where
  code : Int
  message : String
  details : List AnyDetail

/-- `serialize_status_detail(status_detail)`: `None` for a falsy input,
    else `MessageToDict(status_detail, preserving_proto_field_name=True)`.
    A protobuf message object defines no `__bool__`/`__len__`, so the
    detail entries iterated by `_parse_details` are always truthy and
    the `None` branch is never taken for them. -/
def serialize_status_detail (status_detail : AnyDetail) : Option PyDict :=
  some status_detail.message_dict

/-- The `StatusDetails` container: ten optional well-known detail
    mappings, all initialized to `None` by `__init__`. -/
structure StatusDetails : Type where
  error_info : Option PyDict
  retry_info : Option PyDict
  debug_info : Option PyDict
  quota_failure : Option PyDict
  precondition_failure : Option PyDict
  bad_request : Option PyDict
  request_info : Option PyDict
  resource_info : Option PyDict
  help : Option PyDict
  localized_message : Option PyDict

/-- `StatusDetails.__init__`: every field starts as `None`. -/
def StatusDetails.init : StatusDetails :=
  { error_info := none, retry_info := none, debug_info := none,
    quota_failure := none, precondition_failure := none,
    bad_request := none, request_info := none, resource_info := none,
    help := none, localized_message := none }

/-- `StatusDetails.as_dict()`: a dict of all attributes, in the order
    `__init__` set them. -/
def StatusDetails.as_dict (d : StatusDetails) : PyValue :=
  let f : Option PyDict → PyValue := fun o =>
    match o with
    | none => .pyNone
    | some m => .pyDict m
  .pyDict [("error_info", f d.error_info),
           ("retry_info", f d.retry_info),
           ("debug_info", f d.debug_info),
           ("quota_failure", f d.quota_failure),
           ("precondition_failure", f d.precondition_failure),
           ("bad_request", f d.bad_request),
           ("request_info", f d.request_info),
           ("resource_info", f d.resource_info),
           ("help", f d.help),
           ("localized_message", f d.localized_message)]

/-- A gRPC transport failure (`grpc.RpcError` that is also a `Call`):
    `code()` and `details()` results, plus the trailing metadata
    entries (`None` when the call carries none), each a key together
    with its decoded `google.rpc.status_pb2.Status` payload.  Only the
    entry keyed `grpc-status-details-bin` is ever interpreted. -/
structure RpcErrObj : Type where
  code : StatusCode
  details : String
  trailing_metadata : Option (List (String × GrpcStatusPB))

def GRPC_DETAILS_METADATA_KEY : String := "grpc-status-details-bin"

/-- The scan of `grpc_status.rpc_status.from_call` over the trailing
    metadata: the first `grpc-status-details-bin` entry is decoded and
    checked against the call; per the library's documented contract a
    `ValueError` is raised when the embedded status's code or message
    disagrees with the call's `code()`/`details()`. -/
def fromCallScan (call : RpcErrObj) :
    List (String × GrpcStatusPB) → Except PyExc (Option GrpcStatusPB)
  | [] => .ok none
  | (key, value) :: rest =>
    if key == GRPC_DETAILS_METADATA_KEY then
      if call.code.value0 != value.code then
        .error "ValueError: code in rich status does not match RpcError status code"
      else if call.details != value.message then
        .error "ValueError: message in rich status does not match RpcError details"
      else .ok (some value)
    else fromCallScan call rest

/-- `grpc_status.rpc_status.from_call(call)` (external collaborator,
    modelled from the grpc library's documented behaviour): `None` when
    there is no trailing metadata or no `grpc-status-details-bin`
    entry; otherwise the decoded rich status, after raising `ValueError`
    on a code or message mismatch with the call. -/
def rpc_status_from_call (call : RpcErrObj) : Except PyExc (Option GrpcStatusPB) :=
  match call.trailing_metadata with
  | none => .ok none
  | some md => fromCallScan call md

/-- One iteration of the `_parse_details` loop: the `detail.Is(...)`
    cascade assigns `serialize_status_detail(detail)` to the field for
    the matching well-known kind; unrecognized kinds fall through with
    no assignment. -/
def parseDetailStep (acc : StatusDetails) (detail : AnyDetail) : StatusDetails :=
  match detail.kind with
  | .errorInfo => { acc with error_info := serialize_status_detail detail }
  | .retryInfo => { acc with retry_info := serialize_status_detail detail }
  | .debugInfo => { acc with debug_info := serialize_status_detail detail }
  | .quotaFailure => { acc with quota_failure := serialize_status_detail detail }
  | .preconditionFailure =>
    { acc with precondition_failure := serialize_status_detail detail }
  | .badRequest => { acc with bad_request := serialize_status_detail detail }
  | .requestInfo => { acc with request_info := serialize_status_detail detail }
  | .resourceInfo => { acc with resource_info := serialize_status_detail detail }
  | .helpKind => { acc with help := serialize_status_detail detail }
  | .localizedMessage =>
    { acc with localized_message := serialize_status_detail detail }
  | .unknownKind => acc

/-- `DaprGrpcError._parse_details()`: returns immediately when
    `_grpc_status is None`, else folds the assignment cascade over the
    status's detail entries, starting from the fresh `StatusDetails`
    built in `__init__`. -/
def parse_details (grpc_status : Option GrpcStatusPB) : StatusDetails :=
  match grpc_status with
  | none => StatusDetails.init
  | some st => st.details.foldl parseDetailStep StatusDetails.init

/-- `DaprGrpcError`: the normalized gRPC failure.  Field names carry
    the class's private-attribute names. -/
structure DaprGrpcError : Type where
  status_code : StatusCode
  err_message : String
  details_set : StatusDetails
  grpc_status : Option GrpcStatusPB

/-- `DaprGrpcError.__init__(err)`: stores `err.code()` and
    `err.details()`, obtains the rich status via
    `rpc_status.from_call(err)` — NOT wrapped in any `try`/`except`, so
    a `ValueError` raised there propagates out of the constructor —
    and runs `_parse_details()`. -/
def DaprGrpcError.initE (err : RpcErrObj) : Except PyExc DaprGrpcError :=
  match rpc_status_from_call err with
  | .error exc => .error exc
  | .ok grpc_status =>
    .ok { status_code := err.code,
          err_message := err.details,
          details_set := parse_details grpc_status,
          grpc_status := grpc_status }

/-- `DaprGrpcError.code()`. -/
def DaprGrpcError.code (e : DaprGrpcError) : StatusCode := e.status_code

/-- `DaprGrpcError.details()`: kept as the method of that name on the
    class; returns `_err_message`. -/
def DaprGrpcError.details (e : DaprGrpcError) : String := e.err_message

/-- `DaprGrpcError.status_details()`. -/
def DaprGrpcError.status_details (e : DaprGrpcError) : StatusDetails :=
  e.details_set

/-- `DaprGrpcError.get_grpc_status()`. -/
def DaprGrpcError.get_grpc_status (e : DaprGrpcError) : Option GrpcStatusPB :=
  e.grpc_status

/-- `DaprGrpcError.error_code()`: `UNKNOWN` unless `error_info` is a
    truthy mapping, else `error_info.get('reason', UNKNOWN)`.  (The
    `not self.status_details()` disjunct of the source's condition is
    always false: a `StatusDetails` instance is a plain object and
    hence truthy.) -/
def DaprGrpcError.error_code (e : DaprGrpcError) : PyValue :=
  match e.status_details.error_info with
  | none => .pyStr ERROR_CODE_UNKNOWN
  | some m =>
    if m.isEmpty then .pyStr ERROR_CODE_UNKNOWN
    else
      match m.lookup "reason" with
      | some v => v
      | none => .pyStr ERROR_CODE_UNKNOWN

/-- The `error_details` dict built by `DaprGrpcError.json()` — the
    object that `json.dumps` serializes there, and that `json.loads`
    recovers from the returned string: the symbolic status-code name
    (not the numeric value), the message, the error code, and
    `StatusDetails.as_dict()`. -/
def DaprGrpcError.json (e : DaprGrpcError) : PyValue :=
  .pyDict [("status_code", .pyStr e.code.name),
           ("message", .pyStr e.details),
           ("error_code", e.error_code),
           ("details", e.details_set.as_dict)]

/-- The keys of a dict value, in order. -/
def dictKeys (v : PyValue) : List String :=
  match v with
  | .pyDict es => es.map Prod.fst
  | _ => []

/-- `charListStarts l n`: the char list `l` starts with `n`. -/
def charListStarts : List Char → List Char → Bool
  | _, [] => true
  | [], _ :: _ => false
  | h :: t, n :: m => h == n && charListStarts t m

/-- `charListHasSub l n`: `n` occurs contiguously inside `l`. -/
def charListHasSub : List Char → List Char → Bool
  | [], n => n.isEmpty
  | h :: t, n => charListStarts (h :: t) n || charListHasSub t n

/-- `needle in hay` on strings (contiguous substring). -/
def strContainsStr (hay needle : String) : Bool :=
  charListHasSub hay.data needle.data

/-- An `RpcError` whose trailing metadata carries a rich status whose
    numeric code (3) disagrees with the call's own code (5). -/
def mismatchedRpcErr : RpcErrObj :=
  { code := { name := "NOT_FOUND", value0 := 5 },
    details := "not found",
    trailing_metadata :=
      some [(GRPC_DETAILS_METADATA_KEY,
             { code := 3, message := "not found", details := [] })] }

/-- An `RpcError` with no structured status attached at all. -/
def plainRpcErr : RpcErrObj :=
  { code := { name := "INTERNAL", value0 := 13 },
    details := "boom",
    trailing_metadata := none }

/-- A deserializer returning a mapping whose `message` is present but
    falsy (the empty string). -/
def falsyMessageSerializer : Serializer :=
  fun _ => .ok (.pyDict [("message", .pyStr ""), ("errorCode", .pyStr "ERR_DB")])

/-- A deserializer returning the well-formed mapping
    `{"message": "db down", "errorCode": "ERR_DB"}`. -/
def dbDownSerializer : Serializer :=
  fun _ => .ok (.pyDict [("message", .pyStr "db down"),
                         ("errorCode", .pyStr "ERR_DB")])

/-- An `RpcError` carrying a well-formed rich status whose single
    detail is an `ErrorInfo` with `reason="QUOTA_EXCEEDED"`. -/
def quotaRpcErr : RpcErrObj :=
  { code := { name := "RESOURCE_EXHAUSTED", value0 := 8 },
    details := "quota exceeded",
    trailing_metadata :=
      some [(GRPC_DETAILS_METADATA_KEY,
             { code := 8, message := "quota exceeded",
               details := [{ kind := DetailKind.errorInfo,
                             message_dict :=
                               [("reason", .pyStr "QUOTA_EXCEEDED"),
                                ("domain", .pyStr "dapr.io")] }] })] }

/-- A deserializer returning a mapping with a message but no
    `errorCode`. -/
def msgOnlySerializer : Serializer :=
  fun _ => .ok (.pyDict [("message", .pyStr "db down")])

/-- An `Optional[str]` argument as a Python value. -/
def pyOfOptStr : Option String → PyValue
  | none => .pyNone
  | some s => .pyStr s

theorem charListStarts_self_append (n t : List Char) :
    charListStarts (n ++ t) n = true := by
  induction n with
  | nil => cases t <;> rfl
  | cons c m ih => simp [charListStarts, ih]

theorem charListHasSub_self_append (n t : List Char) :
    charListHasSub (n ++ t) n = true := by
  cases n with
  | nil =>
    cases t with
    | nil => rfl
    | cons h t' => simp [charListHasSub, charListStarts]
  | cons c m =>
    simp only [List.cons_append, charListHasSub, Bool.or_eq_true]
    left
    exact charListStarts_self_append (c :: m) t

/-- A string that starts with `needle` contains it. -/
theorem strContainsStr_of_startsWith (needle rest : String) :
    strContainsStr (needle ++ rest) needle = true := by
  unfold strContainsStr
  rw [String.data_append]
  exact charListHasSub_self_append needle.data rest.data

theorem pyEqStr_iff (v : PyValue) (s : String) :
    pyEqStr v s = true ↔ v = .pyStr s := by
  cases v <;> simp [pyEqStr]

/-- Two strings ending in distinct single characters differ. -/
theorem string_append_singleton_ne (a b : String) (c d : Char) (hcd : c ≠ d) :
    a ++ String.mk [c] ≠ b ++ String.mk [d] := by
  intro h
  have h2 : (a ++ String.mk [c]).data = (b ++ String.mk [d]).data := by rw [h]
  rw [String.data_append, String.data_append] at h2
  have h3 := congrArg List.getLast? h2
  rw [List.getLast?_concat, List.getLast?_concat] at h3
  exact hcd (Option.some.inj h3)

theorem pyOr_truthy_of_right (a b : PyValue) (hb : b.truthy = true) :
    (pyOr a b).truthy = true := by
  unfold pyOr
  by_cases ha : a.truthy = true
  · simp [ha]
  · simp [ha, hb]

theorem list_isEmpty_false_of_ne_nil {α : Type} {l : List α} (h : l ≠ []) :
    l.isEmpty = false := by
  cases l with
  | nil => exact absurd rfl h
  | cons x xs => rfl

/-- Folding the `_parse_details` cascade over entries none of which is
    an `ErrorInfo` leaves `error_info` untouched. -/
theorem foldl_parseDetailStep_error_info (ds : List AnyDetail)
    (acc : StatusDetails) (h : ∀ d ∈ ds, d.kind ≠ DetailKind.errorInfo) :
    (ds.foldl parseDetailStep acc).error_info = acc.error_info := by
  induction ds generalizing acc with
  | nil => rfl
  | cons d rest ih =>
    have hd : d.kind ≠ DetailKind.errorInfo := h d (List.mem_cons_self d rest)
    have hstep : (parseDetailStep acc d).error_info = acc.error_info := by
      unfold parseDetailStep
      cases hk : d.kind
      case errorInfo => exact absurd hk hd
      all_goals rfl
    rw [List.foldl_cons, ih _ (fun x hx => h x (List.mem_cons_of_mem d hx)),
        hstep]

/-- C1.  For every `DaprHttpError` built with `status_code == 404` and
    an absent or empty body: the error code is `ERR_DOES_NOT_EXIST`,
    the stored bytes are `None`, and the message is
    `"HTTP status code: 404"`.  The right-hand side does not mention
    `serializer`, so the deserializer is never consulted. -/
theorem http_404_empty_body (serializer : Serializer) (raw : Option ByteStr)
    (reason : Option String) (h : bytesNoneOrEmpty raw = true) :
    DaprHttpError.initE serializer raw (some 404) reason =
      .ok { message := .pyStr "HTTP status code: 404",
            error_code := .pyStr ERROR_CODE_DOES_NOT_EXIST,
            raw_response_bytes := none,
            status_code := some 404,
            reason := reason } := by
  unfold DaprHttpError.initE mkHttpError
  rw [h]
  simp [pyOr, PyValue.truthy, pyReprOptInt]
  rfl

/-- Witness for C1 at a concrete input: absent body, status 404, and a
    deserializer that would raise if it were ever called. -/
theorem http_404_empty_body_witness :
    DaprHttpError.initE (fun _ => .error "boom") none (some 404) none =
      .ok { message := .pyStr "HTTP status code: 404",
            error_code := .pyStr ERROR_CODE_DOES_NOT_EXIST,
            raw_response_bytes := none,
            status_code := some 404,
            reason := none } :=
  http_404_empty_body (fun _ => .error "boom") none none rfl

/-- C10.  For every `DaprHttpError` built with the empty byte string
    `b""` and a status code other than 404 (including `None`): the
    error code is `UNKNOWN`, the message is the
    `"HTTP status code: {status_code}"` fallback, and the stored bytes
    stay `b""` (the `None`-normalization happens only on the 404
    branch).  The right-hand side does not mention `serializer`, so the
    deserializer is never invoked. -/
theorem http_empty_body_non_404 (serializer : Serializer)
    (status_code : Option Int) (reason : Option String)
    (h : status_code ≠ some 404) :
    DaprHttpError.initE serializer (some []) status_code reason =
      .ok { message := .pyStr ("HTTP status code: " ++ pyReprOptInt status_code),
            error_code := .pyStr ERROR_CODE_UNKNOWN,
            raw_response_bytes := some [],
            status_code := status_code,
            reason := reason } := by
  unfold DaprHttpError.initE mkHttpError
  have hbeq : (status_code == some 404) = false := by
    simpa using h
  simp [bytesNoneOrEmpty, bytesTruthy, hbeq, pyOr, PyValue.truthy]

/-- Witness for C10 at the concrete input `b""`, `status_code=None`:
    the Python f-string renders `None` into the fallback message. -/
theorem http_empty_body_non_404_witness :
    DaprHttpError.initE (fun _ => .error "boom") (some []) none none =
      .ok { message := .pyStr "HTTP status code: None",
            error_code := .pyStr ERROR_CODE_UNKNOWN,
            raw_response_bytes := some [],
            status_code := none,
            reason := none } :=
  http_empty_body_non_404 (fun _ => .error "boom") none none (by simp)

/-- C2.  For every `DaprHttpError` built with a non-empty body whose
    deserializer call raises (any exception): construction still
    returns (`Except.ok`), the error code is `UNKNOWN`, the message is
    the `"HTTP status code: {status_code}"` fallback, and the original
    bytes are preserved unchanged. -/
theorem http_deserializer_raises (serializer : Serializer) (bs : ByteStr)
    (exc : PyExc) (status_code : Option Int) (reason : Option String)
    (hne : bs ≠ []) (hraise : serializer bs = .error exc) :
    DaprHttpError.initE serializer (some bs) status_code reason =
      .ok { message := .pyStr ("HTTP status code: " ++ pyReprOptInt status_code),
            error_code := .pyStr ERROR_CODE_UNKNOWN,
            raw_response_bytes := some bs,
            status_code := status_code,
            reason := reason } := by
  unfold DaprHttpError.initE mkHttpError
  have hempty : bs.isEmpty = false := list_isEmpty_false_of_ne_nil hne
  simp [bytesNoneOrEmpty, bytesTruthy, hempty, hraise, pyOr, PyValue.truthy]

/-- Witness for C2 at a concrete input: body `b"\x01"` with an
    always-raising deserializer and status 500. -/
theorem http_deserializer_raises_witness :
    DaprHttpError.initE (fun _ => .error "JSONDecodeError") (some [1])
        (some 500) none =
      .ok { message := .pyStr "HTTP status code: 500",
            error_code := .pyStr ERROR_CODE_UNKNOWN,
            raw_response_bytes := some [1],
            status_code := some 500,
            reason := none } := by
  have := http_deserializer_raises (fun _ => .error "JSONDecodeError") [1]
    "JSONDecodeError" (some 500) none (by simp) rfl
  simpa using this

/-- C3 (amended).  `DaprHttpError.__init__` never raises: for any
    deserializer behavior, any bytes and any status code, construction
    returns a value (the `try`/`except Exception: pass` swallows every
    deserializer failure).  `DaprGrpcError.__init__` returns a
    constructed object whenever `rpc_status.from_call` returns —
    in particular for a failure with no structured status attached —
    but it wraps that call in no `try`/`except`, so the `ValueError`
    raised by `from_call` on a mismatched rich status in the trailing
    metadata propagates (see the counterexample). -/
theorem construction_never_raises_amended :
    (∀ (serializer : Serializer) (raw : Option ByteStr)
       (status_code : Option Int) (reason : Option String),
       (DaprHttpError.initE serializer raw status_code reason).isOk = true) ∧
    (∀ (err : RpcErrObj) (st : Option GrpcStatusPB),
       rpc_status_from_call err = .ok st →
       DaprGrpcError.initE err =
         .ok { status_code := err.code, err_message := err.details,
               details_set := parse_details st, grpc_status := st }) := by
  constructor
  · intro serializer raw status_code reason
    unfold DaprHttpError.initE
    split
    · rfl
    · split
      · dsimp only
        split <;> rfl
      · rfl
  · intro err st h
    unfold DaprGrpcError.initE
    rw [h]

/-- Counterexample to C3 as stated: for an `RpcError` with a
    mismatched structured status in its trailing metadata,
    `DaprGrpcError.__init__` does not return a constructed error
    object — the `ValueError` raised by `rpc_status.from_call`
    propagates out of the constructor. -/
theorem construction_never_raises_cex :
    DaprGrpcError.initE mismatchedRpcErr =
      .error "ValueError: code in rich status does not match RpcError status code" := by
  rfl

/-- Witness for C3 (amended) at a concrete input: an `RpcError` with no
    trailing metadata constructs successfully, with an empty detail
    set. -/
theorem construction_never_raises_witness :
    DaprGrpcError.initE plainRpcErr =
      .ok { status_code := { name := "INTERNAL", value0 := 13 },
            err_message := "boom",
            details_set := StatusDetails.init,
            grpc_status := none } :=
  construction_never_raises_amended.2 plainRpcErr none rfl

/-- Counterexample to C4 as stated: for a body deserializing to
    `{"message": "", "errorCode": "ERR_DB"}` the claim requires
    `message == m` with `m = ""` (it is present and not `None`), but
    the code computes `message or f'...'` and the falsy `""` falls back
    to `"HTTP status code: 500"`. -/
theorem http_body_mapping_cex :
    DaprHttpError.initE falsyMessageSerializer (some [1]) (some 500) none =
      .ok { message := .pyStr "HTTP status code: 500",
            error_code := .pyStr "ERR_DB",
            raw_response_bytes := some [1],
            status_code := some 500,
            reason := none } ∧
    (PyValue.pyStr "HTTP status code: 500" ≠ .pyStr "") := by
  exact ⟨rfl, by simp⟩

/-- How `DaprHttpError.__init__` reads a deserialized mapping: shared
    between the C4 and C6 theorems below. -/
theorem http_body_mapping_core (serializer : Serializer) (bs : ByteStr)
    (status_code : Option Int) (reason : Option String) (entries : PyDict)
    (e : DaprHttpError)
    (hne : bs ≠ [])
    (hdeser : serializer bs = .ok (.pyDict entries))
    (hnonempty : entries ≠ [])
    (h : DaprHttpError.initE serializer (some bs) status_code reason = .ok e) :
    (∀ m, entries.lookup "message" = some m → m.truthy = true →
       e.message = m) ∧
    (∀ m, entries.lookup "message" = some m → m.truthy = false →
       e.message = .pyStr ("HTTP status code: " ++ pyReprOptInt status_code)) ∧
    (entries.lookup "message" = none →
       e.message = .pyStr ("HTTP status code: " ++ pyReprOptInt status_code)) ∧
    (∀ c, entries.lookup "errorCode" = some c → c.truthy = true →
       e.error_code = c) ∧
    (∀ c, entries.lookup "errorCode" = some c → c.truthy = false →
       e.error_code = .pyStr ERROR_CODE_UNKNOWN) ∧
    (entries.lookup "errorCode" = none →
       e.error_code = .pyStr ERROR_CODE_UNKNOWN) ∧
    e.raw_response_bytes = some bs := by
  have hempty : bs.isEmpty = false := list_isEmpty_false_of_ne_nil hne
  have hentries : entries.isEmpty = false := list_isEmpty_false_of_ne_nil hnonempty
  unfold DaprHttpError.initE at h
  simp [bytesNoneOrEmpty, bytesTruthy, hempty, hdeser, PyValue.truthy,
        PyValue.isDict, hentries] at h
  subst h
  refine ⟨?_, ?_, ?_, ?_, ?_, ?_, ?_⟩
  · intro m hm hmt
    simp [mkHttpError, dictGet, hm, pyOr, hmt]
  · intro m hm hmt
    simp [mkHttpError, dictGet, hm, pyOr, hmt]
  · intro hm
    simp [mkHttpError, dictGet, hm, pyOr, PyValue.truthy]
  · intro c hc hct
    simp [mkHttpError, dictGet, hc, pyOr, hct]
  · intro c hc hct
    simp [mkHttpError, dictGet, hc, pyOr, hct]
  · intro hc
    simp [mkHttpError, dictGet, hc, pyOr, PyValue.truthy]
  · simp [mkHttpError]

/-- C4 (amended).  For a non-empty body whose deserialization succeeds
    and yields a truthy mapping: `message` is the mapping's `message`
    value when that value is truthy, and the
    `"HTTP status code: {status_code}"` fallback when it is absent
    **or falsy** (not merely absent/None); `error_code` is the
    mapping's `errorCode` value when truthy and `"UNKNOWN"` when
    absent or falsy; the original bytes are preserved. -/
theorem http_body_mapping_amended (serializer : Serializer) (bs : ByteStr)
    (status_code : Option Int) (reason : Option String) (entries : PyDict)
    (e : DaprHttpError)
    (hne : bs ≠ [])
    (hdeser : serializer bs = .ok (.pyDict entries))
    (hnonempty : entries ≠ [])
    (h : DaprHttpError.initE serializer (some bs) status_code reason = .ok e) :
    (∀ m, entries.lookup "message" = some m → m.truthy = true →
       e.message = m) ∧
    (∀ m, entries.lookup "message" = some m → m.truthy = false →
       e.message = .pyStr ("HTTP status code: " ++ pyReprOptInt status_code)) ∧
    (entries.lookup "message" = none →
       e.message = .pyStr ("HTTP status code: " ++ pyReprOptInt status_code)) ∧
    (∀ c, entries.lookup "errorCode" = some c → c.truthy = true →
       e.error_code = c) ∧
    (∀ c, entries.lookup "errorCode" = some c → c.truthy = false →
       e.error_code = .pyStr ERROR_CODE_UNKNOWN) ∧
    (entries.lookup "errorCode" = none →
       e.error_code = .pyStr ERROR_CODE_UNKNOWN) ∧
    e.raw_response_bytes = some bs :=
  http_body_mapping_core serializer bs status_code reason entries e hne
    hdeser hnonempty h

/-- Witness for C4 (amended) at a concrete input: a truthy message and
    a truthy error code are taken from the body verbatim. -/
theorem http_body_mapping_witness :
    ({ message := .pyStr "db down", error_code := .pyStr "ERR_DB",
       raw_response_bytes := some [1], status_code := some 500,
       reason := none } : DaprHttpError).message = .pyStr "db down" ∧
    ({ message := .pyStr "db down", error_code := .pyStr "ERR_DB",
       raw_response_bytes := some [1], status_code := some 500,
       reason := none } : DaprHttpError).error_code = .pyStr "ERR_DB" := by
  have h := http_body_mapping_amended dbDownSerializer [1] (some 500) none
    [("message", .pyStr "db down"), ("errorCode", .pyStr "ERR_DB")]
    { message := .pyStr "db down", error_code := .pyStr "ERR_DB",
      raw_response_bytes := some [1], status_code := some 500, reason := none }
    (by simp) rfl (by simp) (by rfl)
  exact ⟨h.1 (.pyStr "db down") rfl rfl, h.2.2.2.1 (.pyStr "ERR_DB") rfl rfl⟩

/-- C5.  For every constructed `DaprGrpcError`, `error_code()` is
    `"UNKNOWN"` in all three degradation cases — (1) no structured
    status attached, (2) structured status present but with no
    error-info detail, (3) error-info present but its mapping lacks a
    `reason` key — and is `error_info["reason"]` whenever `error_info`
    is populated with a `reason` key. -/
theorem grpc_error_code_degradation (err : RpcErrObj) (e : DaprGrpcError)
    (h : DaprGrpcError.initE err = .ok e) :
    (e.get_grpc_status = none → e.error_code = .pyStr ERROR_CODE_UNKNOWN) ∧
    (∀ st, e.get_grpc_status = some st →
       (∀ d ∈ st.details, d.kind ≠ DetailKind.errorInfo) →
       e.error_code = .pyStr ERROR_CODE_UNKNOWN) ∧
    (∀ m, e.status_details.error_info = some m → m.lookup "reason" = none →
       e.error_code = .pyStr ERROR_CODE_UNKNOWN) ∧
    (∀ m v, e.status_details.error_info = some m →
       m.lookup "reason" = some v → e.error_code = v) := by
  unfold DaprGrpcError.initE at h
  rcases hcall : rpc_status_from_call err with exc | st0
  · rw [hcall] at h; exact absurd h (by simp)
  rw [hcall] at h
  simp only [Except.ok.injEq] at h
  subst h
  refine ⟨?_, ?_, ?_, ?_⟩
  · intro hst
    simp only [DaprGrpcError.get_grpc_status] at hst
    subst hst
    rfl
  · intro st hst hnone
    simp only [DaprGrpcError.get_grpc_status] at hst
    subst hst
    unfold DaprGrpcError.error_code DaprGrpcError.status_details parse_details
    rw [foldl_parseDetailStep_error_info st.details StatusDetails.init hnone]
    rfl
  · intro m hm hr
    unfold DaprGrpcError.error_code
    rw [hm]
    rcases hme : m.isEmpty with _ | _
    · simp [hme, hr]
    · simp [hme]
  · intro m v hm hr
    unfold DaprGrpcError.error_code
    rw [hm]
    have hme : m.isEmpty = false := by
      cases m with
      | nil => simp [List.lookup] at hr
      | cons x xs => rfl
    simp [hme, hr]

/-- Witness for C5 at a concrete input: the populated `reason` is
    returned as the error code. -/
theorem grpc_error_code_degradation_witness :
    ({ status_code := { name := "RESOURCE_EXHAUSTED", value0 := 8 },
       err_message := "quota exceeded",
       details_set :=
         { StatusDetails.init with
           error_info := some [("reason", .pyStr "QUOTA_EXCEEDED"),
                               ("domain", .pyStr "dapr.io")] },
       grpc_status :=
         some { code := 8, message := "quota exceeded",
                details := [{ kind := DetailKind.errorInfo,
                              message_dict :=
                                [("reason", .pyStr "QUOTA_EXCEEDED"),
                                 ("domain", .pyStr "dapr.io")] }] } }
      : DaprGrpcError).error_code = .pyStr "QUOTA_EXCEEDED" := by
  have h := grpc_error_code_degradation quotaRpcErr
    { status_code := { name := "RESOURCE_EXHAUSTED", value0 := 8 },
      err_message := "quota exceeded",
      details_set :=
        { StatusDetails.init with
          error_info := some [("reason", .pyStr "QUOTA_EXCEEDED"),
                              ("domain", .pyStr "dapr.io")] },
      grpc_status :=
        some { code := 8, message := "quota exceeded",
               details := [{ kind := DetailKind.errorInfo,
                             message_dict :=
                               [("reason", .pyStr "QUOTA_EXCEEDED"),
                                ("domain", .pyStr "dapr.io")] }] } } (by rfl)
  exact h.2.2.2 [("reason", .pyStr "QUOTA_EXCEEDED"), ("domain", .pyStr "dapr.io")]
    (.pyStr "QUOTA_EXCEEDED") rfl rfl

/-- A string ending in `)` never equals one ending in `.`. -/
theorem append_paren_ne_append_dot (a b : String) : a ++ ")" ≠ b ++ "." := by
  intro h
  have h2 : (a ++ ")").data = (b ++ ".").data := by rw [h]
  rw [String.data_append, String.data_append] at h2
  rw [show (")" : String).data = [')'] from rfl,
      show ("." : String).data = ['.'] from rfl] at h2
  have h3 := congrArg List.getLast? h2
  rw [List.getLast?_concat, List.getLast?_concat] at h3
  simp at h3

/-- Counterexample to C6 as stated: for HTTP 500 with body
    `{"message": "db down"}`, a message **is** derived from the body
    (and stored), the code stays `UNKNOWN`, and `__str__` still
    renders the unknown-fallback string — which does not include the
    derived message.  So the fallback is not produced "only when no
    message was derived", and a derived message is not always
    included in `str(error)`. -/
theorem http_fallback_rendering_cex :
    DaprHttpError.initE msgOnlySerializer (some [1]) (some 500) none =
      .ok { message := .pyStr "db down",
            error_code := .pyStr ERROR_CODE_UNKNOWN,
            raw_response_bytes := some [1],
            status_code := some 500,
            reason := none } ∧
    DaprHttpError.toStr
        { message := .pyStr "db down",
          error_code := .pyStr ERROR_CODE_UNKNOWN,
          raw_response_bytes := some [1],
          status_code := some 500,
          reason := none } = "Unknown Dapr Error. HTTP status code: 500." ∧
    strContainsStr "Unknown Dapr Error. HTTP status code: 500." "db down" =
      false := by
  refine ⟨rfl, rfl, rfl⟩

/-- C6 (amended).  The unknown-fallback string is produced exactly when
    `error_code == "UNKNOWN"` — independently of whether a message was
    derived from the body; and `str(error)` includes the derived
    message whenever the body also supplied a truthy `errorCode`
    different from `"UNKNOWN"`. -/
theorem http_fallback_rendering_amended (serializer : Serializer)
    (raw : Option ByteStr) (status_code : Option Int) (reason : Option String)
    (e : DaprHttpError)
    (h : DaprHttpError.initE serializer raw status_code reason = .ok e) :
    (DaprHttpError.toStr e = unknownHttpFallback e.status_code ↔
       e.error_code = .pyStr ERROR_CODE_UNKNOWN) ∧
    (∀ bs entries m c, raw = some bs → bs ≠ [] →
       serializer bs = .ok (.pyDict entries) →
       entries.lookup "message" = some m → m.truthy = true →
       entries.lookup "errorCode" = some c → c.truthy = true →
       c ≠ .pyStr ERROR_CODE_UNKNOWN →
       strContainsStr (DaprHttpError.toStr e) (pyStrOf m) = true) := by
  constructor
  · by_cases hc : pyEqStr e.error_code ERROR_CODE_UNKNOWN = true
    · have he := (pyEqStr_iff e.error_code ERROR_CODE_UNKNOWN).mp hc
      unfold DaprHttpError.toStr
      rw [hc]
      simp only [Bool.not_true]
      rw [if_neg (by simp)]
      exact iff_of_true rfl he
    · have hcf : pyEqStr e.error_code ERROR_CODE_UNKNOWN = false := by
        simpa using hc
      have hne : e.error_code ≠ .pyStr ERROR_CODE_UNKNOWN := fun hh =>
        hc ((pyEqStr_iff e.error_code ERROR_CODE_UNKNOWN).mpr hh)
      unfold DaprHttpError.toStr
      rw [hcf]
      simp only [Bool.not_false, if_true]
      constructor
      · intro habs
        exact absurd habs (append_paren_ne_append_dot _ _)
      · intro habs
        exact absurd habs hne
  · intro bs entries m c hraw hne hdeser hm hmt hcLookup hct hcne
    subst hraw
    have hparts := http_body_mapping_core serializer bs status_code reason
      entries e hne hdeser
      (fun hnil => by subst hnil; simp [List.lookup] at hm) h
    have hmsg : e.message = m := hparts.1 m hm hmt
    have hcode : e.error_code = c := hparts.2.2.2.1 c hcLookup hct
    have hcf : pyEqStr e.error_code ERROR_CODE_UNKNOWN = false := by
      rw [hcode]
      cases hv : pyEqStr c ERROR_CODE_UNKNOWN
      · rfl
      · exact absurd ((pyEqStr_iff c ERROR_CODE_UNKNOWN).mp hv) hcne
    unfold DaprHttpError.toStr
    rw [hcf]
    simp only [Bool.not_false, if_true]
    rw [hmsg, String.append_assoc, String.append_assoc, String.append_assoc,
        String.append_assoc]
    exact strContainsStr_of_startsWith (pyStrOf m) _

/-- Witness for C6 (amended) at a concrete input: with body
    `{"message": "db down", "errorCode": "ERR_DB"}` and HTTP 500, the
    rendered string includes the derived message. -/
theorem http_fallback_rendering_witness :
    strContainsStr
        (DaprHttpError.toStr
          { message := .pyStr "db down", error_code := .pyStr "ERR_DB",
            raw_response_bytes := some [1], status_code := some 500,
            reason := none }) "db down" = true := by
  have h := http_fallback_rendering_amended dbDownSerializer (some [1])
    (some 500) none
    { message := .pyStr "db down", error_code := .pyStr "ERR_DB",
      raw_response_bytes := some [1], status_code := some 500,
      reason := none } (by rfl)
  have h2 := h.2 [1] [("message", .pyStr "db down"),
                      ("errorCode", .pyStr "ERR_DB")]
    (.pyStr "db down") (.pyStr "ERR_DB") rfl (by simp) rfl rfl rfl rfl rfl
    (by simp [ERROR_CODE_UNKNOWN])
  simpa using h2

/-- Counterexample to C7 as stated: `DaprInternalError.__init__`
    annotates `error_code: Optional[str]`, so `None` is an accepted
    argument — and it is stored verbatim, leaving `error_code` equal
    to `None` (falsy), not `"UNKNOWN"`. -/
theorem error_code_truthy_cex :
    (DaprInternalError.init (.pyStr "something went wrong") .pyNone
        none).error_code = .pyNone ∧
    PyValue.truthy .pyNone = false := by
  exact ⟨rfl, rfl⟩

/-- C7 (amended).  Every constructed `DaprHttpError` has a truthy
    (hence non-empty, non-`None`) `error_code`; `DaprInternalError`
    yields `"UNKNOWN"` when the `error_code` argument is left at its
    default, but stores an explicitly passed `None` or empty string
    verbatim (see the counterexample). -/
theorem error_code_truthy_amended :
    (∀ (serializer : Serializer) (raw : Option ByteStr)
       (status_code : Option Int) (reason : Option String)
       (e : DaprHttpError),
       DaprHttpError.initE serializer raw status_code reason = .ok e →
       e.error_code.truthy = true) ∧
    (∀ (message : PyValue) (raw : Option ByteStr),
       (DaprInternalError.init message (.pyStr ERROR_CODE_UNKNOWN)
           raw).error_code = .pyStr ERROR_CODE_UNKNOWN) := by
  constructor
  · intro serializer raw status_code reason e h
    unfold DaprHttpError.initE at h
    split at h
    · simp only [Except.ok.injEq] at h
      subst h
      rfl
    · split at h
      · split at h
        all_goals dsimp only at h
        all_goals split at h
        all_goals simp only [Except.ok.injEq] at h
        all_goals subst h
        all_goals simp only [mkHttpError]
        all_goals first
          | rfl
          | exact pyOr_truthy_of_right _ _ rfl
      · simp only [Except.ok.injEq] at h
        subst h
        rfl
  · intro message raw
    rfl

/-- Witness for C7 (amended) at a concrete input: an HTTP error built
    from an unparseable body has the truthy code `"UNKNOWN"`. -/
theorem error_code_truthy_witness :
    ({ message := .pyStr "HTTP status code: None",
       error_code := .pyStr ERROR_CODE_UNKNOWN,
       raw_response_bytes := none, status_code := none,
       reason := none } : DaprHttpError).error_code.truthy = true :=
  error_code_truthy_amended.1 (fun _ => .error "boom") none none none
    { message := .pyStr "HTTP status code: None",
      error_code := .pyStr ERROR_CODE_UNKNOWN,
      raw_response_bytes := none, status_code := none,
      reason := none } (by rfl)

/-- C8.  For every `DaprInternalError` built from arguments of its
    annotated types (any `Optional[str]` message and error code, any
    `Optional[bytes]` payload, including arbitrary non-empty binary):
    `as_json_safe_dict()` is JSON-serializable and round-trips through
    JSON encode/decode unchanged; its `raw_response_bytes` entry is the
    base64 text encoding of the bytes when present; and with no bytes
    the mapping equals `as_dict()`. -/
theorem as_json_safe_dict_roundtrip (message error_code : Option String)
    (raw : Option ByteStr) (e : DaprInternalError)
    (he : e = DaprInternalError.init (pyOfOptStr message)
        (pyOfOptStr error_code) raw) :
    (pyToJson e.as_json_safe_dict).isSome = true ∧
    (∀ j, pyToJson e.as_json_safe_dict = some j →
       jsonToPy j = e.as_json_safe_dict) ∧
    (∀ bs, raw = some bs →
       dictGet e.as_json_safe_dict "raw_response_bytes" =
         .pyStr (base64Encode bs)) ∧
    (raw = none → e.as_json_safe_dict = e.as_dict) := by
  subst he
  rcases raw with _ | bs <;> rcases message with _ | ms <;>
    rcases error_code with _ | cs <;>
    simp [DaprInternalError.init, DaprInternalError.as_dict,
          DaprInternalError.as_json_safe_dict, dictSet, dictGet, pyOfOptStr,
          pyToJson, pyToJsonDict, jsonToPy, jsonToPyDict]
  all_goals rfl

/-- Witness for C8 at a concrete input: binary payload
    `b"\x00\xff\x10"` is stored base64-encoded as `"AP8Q"`. -/
theorem as_json_safe_dict_roundtrip_witness :
    dictGet (DaprInternalError.init (.pyStr "oops") (.pyStr "FOO")
        (some [0, 255, 16])).as_json_safe_dict "raw_response_bytes" =
      .pyStr "AP8Q" := by
  have h := as_json_safe_dict_roundtrip (some "oops") (some "FOO")
    (some [0, 255, 16])
    (DaprInternalError.init (.pyStr "oops") (.pyStr "FOO") (some [0, 255, 16]))
    rfl
  exact (h.2.2.1 [0, 255, 16] rfl).trans (by rfl)

/-- C9.  For every constructed `DaprGrpcError`, the object serialized
    by `json()` (and recovered by decoding the returned JSON string)
    has exactly the keys `status_code`, `message`, `error_code` and
    `details`; `status_code` holds the symbolic enum name of `code()`
    (not its numeric value), `message` equals `details()`, `error_code`
    equals `error_code()`, and `details` carries all ten detail-kind
    field names even when their values are null. -/
theorem grpc_json_shape (err : RpcErrObj) (e : DaprGrpcError)
    (h : DaprGrpcError.initE err = .ok e) :
    dictKeys e.json = ["status_code", "message", "error_code", "details"] ∧
    dictGet e.json "status_code" = .pyStr e.code.name ∧
    e.code = err.code ∧
    dictGet e.json "message" = .pyStr e.details ∧
    e.details = err.details ∧
    dictGet e.json "error_code" = e.error_code ∧
    dictGet e.json "details" = e.details_set.as_dict ∧
    dictKeys e.details_set.as_dict =
      ["error_info", "retry_info", "debug_info", "quota_failure",
       "precondition_failure", "bad_request", "request_info",
       "resource_info", "help", "localized_message"] := by
  have hfields : e.code = err.code ∧ e.details = err.details := by
    unfold DaprGrpcError.initE at h
    rcases hcall : rpc_status_from_call err with exc | st0
    · rw [hcall] at h; exact absurd h (by simp)
    · rw [hcall] at h
      simp only [Except.ok.injEq] at h
      subst h
      exact ⟨rfl, rfl⟩
  refine ⟨rfl, rfl, hfields.1, rfl, hfields.2, rfl, rfl, ?_⟩
  unfold StatusDetails.as_dict dictKeys
  rfl

/-- Witness for C9 at a concrete input: the error built from
    `plainRpcErr` (no structured status). -/
theorem grpc_json_shape_witness :
    dictKeys
        ({ status_code := { name := "INTERNAL", value0 := 13 },
           err_message := "boom",
           details_set := StatusDetails.init,
           grpc_status := none } : DaprGrpcError).json =
      ["status_code", "message", "error_code", "details"] ∧
    dictGet
        ({ status_code := { name := "INTERNAL", value0 := 13 },
           err_message := "boom",
           details_set := StatusDetails.init,
           grpc_status := none } : DaprGrpcError).json "status_code" =
      .pyStr "INTERNAL" := by
  have h := grpc_json_shape plainRpcErr
    { status_code := { name := "INTERNAL", value0 := 13 },
      err_message := "boom", details_set := StatusDetails.init,
      grpc_status := none } (by rfl)
  exact ⟨h.1, h.2.1⟩
